import Mathlib

/-!
Shallow embedding of the operation-dispatch and pagination layer of the
Outreach-agent repository: the Notion workspace/database tools
(src/NotionWorkspaceTool.py, src/outreach_agent/tools/NotionDatabaseTool.py)
and the Resend email tool (src/outreach_agent/tools/ResendEmailTool.py).

External collaborators (process environment, the JSON parser of the standard
library, and the HTTP / email transports) are modelled as components of an
explicit world record; the control flow of the tools themselves is translated
from the Python source.  Every dispatcher returns a pair of the operation
result (an `Except` of the error taxonomy and the returned summary string)
and the number of outbound transport calls the invocation issued.
-/

deriving instance DecidableEq for Except

/-- Model of a parsed JSON value, the codomain of the standard library parser
`json.loads` as used by the tools. -/
inductive Json where
  | null : Json
  | bool (b : Bool) : Json
  | num (n : Int) : Json
  | str (s : String) : Json
  | arr (items : List Json) : Json
  | obj (fields : List (String × Json)) : Json

/-- Python truthiness of an optional string: `None` and the empty string are
falsy, every other string is truthy. -/
def strTruthy : Option String → Bool
  | none => false
  | some s => !(s == "")

/-- Python truthiness of an optional list: `None` and the empty list are falsy. -/
def listTruthy : Option (List String) → Bool
  | none => false
  | some l => !l.isEmpty

/-- Python `a or b` on optional strings: the left operand wins when truthy. -/
def pyOrS (a b : Option String) : Option String :=
  if strTruthy a then a else b

/-- Rendering of an optional string inside a Python f-string: a missing value
prints as the literal `None`. -/
def pyStr : Option String → String
  | none => "None"
  | some s => s

/-- ASCII whitespace recognised by Python `str.strip()`. -/
def pyIsSpace (c : Char) : Bool :=
  c = ' ' || c = '\t' || c = '\n' || c = '\r' || c = '\x0b' || c = '\x0c'

/-- Model of Python `str.strip()`: drop leading and trailing whitespace. -/
def pyStrip (s : String) : String :=
  String.mk (((s.data.dropWhile pyIsSpace).reverse.dropWhile pyIsSpace).reverse)

/-- One entry of a Notion title list; `plain_text` is read with
`item.get("plain_text", "")`, so the field is optional. -/
structure TitleEntry where
  plain_text : Option String := none
deriving DecidableEq

/-- One value of a Notion property map.  The source guards each value with
`isinstance(prop, dict)`; `nonDict` models a value failing that guard, and
`dict` carries the `type` tag (read with `.get("type")`) and the title list
(read with `.get("title", [])`). -/
inductive PropVal where
  | dict (typeTag : Option String) (title : List TitleEntry) : PropVal
  | nonDict : PropVal
deriving DecidableEq

/-- Whether a property value is a dict whose `type` tag equals `"title"`. -/
def isTitleProp : PropVal → Bool
  | PropVal.dict t _ => t = some "title"
  | PropVal.nonDict => false

/-- The title list of a property value (empty for non-dict values). -/
def titleList : PropVal → List TitleEntry
  | PropVal.dict _ l => l
  | PropVal.nonDict => []

/-- A page-like record returned by the workspace service: its `id` (read with
`.get("id")`) and its ordered property map (read with
`.get("properties", {})`; `.values()` preserves insertion order). -/
structure PageRecord where
  id : Option String := none
  properties : List (String × PropVal) := []
deriving DecidableEq

/-- The trimmed-or-placeholder rendering applied to the first entry of a
non-empty title list: `title_items[0].get("plain_text", "").strip() or "(untitled)"`. -/
def titleTextOf (e : TitleEntry) : String :=
  let s := pyStrip (e.plain_text.getD "")
  if s = "" then "(untitled)" else s

/-- Scan of the property values performed by `_extract_title`: the first
dict-valued property whose type is `"title"` and whose title list is
non-empty yields its first entry rendered by `titleTextOf`; otherwise the
scan continues, and the placeholder is returned when the scan is exhausted. -/
def firstTitleText : List PropVal → String
  | [] => "(untitled)"
  | PropVal.nonDict :: rest => firstTitleText rest
  | PropVal.dict t l :: rest =>
    if t = some "title" then
      match l with
      | [] => firstTitleText rest
      | e :: _ => titleTextOf e
    else firstTitleText rest

/-- Embedding of `_extract_title` (identical in NotionWorkspaceTool.py and
NotionDatabaseTool.py): scan the property map of a page-like record. -/
def _extract_title (page_data : PageRecord) : String :=
  firstTitleText (page_data.properties.map Prod.snd)

/-- A database-like record as consumed by `_extract_db_title`: its `id` and
its top-level title list (read with `.get("title", [])`). -/
structure DbRecord where
  id : Option String := none
  title : List TitleEntry := []
deriving DecidableEq

/-- Embedding of `_extract_db_title` (NotionWorkspaceTool.py): read the
top-level title list of a database-like record directly. -/
def _extract_db_title (db_data : DbRecord) : String :=
  match db_data.title with
  | [] => "(untitled)"
  | e :: _ => titleTextOf e

/-- The error taxonomy of the tools (each constructor corresponds to one
`ValueError` / exception family raised by the source; the spec names them
MissingCredentialError, MissingArgumentError, InvalidJsonError,
InvalidPayloadShapeError, InvalidTimestampError, UpstreamRequestError,
UnsupportedOperationError). -/
inductive ToolErr where
  | missingCredential (msg : String) : ToolErr
  | missingArgument (msg : String) : ToolErr
  | invalidJson (field : String) (detail : String) : ToolErr
  | invalidPayloadShape (msg : String) : ToolErr
  | invalidTimestamp : ToolErr
  | upstream (status : Nat) : ToolErr
  | unsupported (msg : String) : ToolErr
deriving DecidableEq

/-- One HTTP response from the workspace service, projected onto the fields
the tools read: the status code, `data.get("results", [])`,
`data.get("next_cursor")`, and, for single-record endpoints, the response
body as a page record. -/
structure HttpResp where
  status : Nat := 200
  results : List PageRecord := []
  next_cursor : Option String := none
  page : PageRecord := {}

/-- Whether `requests.Response.raise_for_status()` raises for this response:
it raises exactly on 4xx and 5xx status codes. -/
def httpIsError (r : HttpResp) : Bool :=
  400 ≤ r.status && r.status < 600

/-- Embedding of the cursor pagination loop shared by the `list_databases`
and `list_database_pages` branches (`for _ in range(max_pages): ...`).
`http i` is the response to the i-th request of this invocation; the first
argument of the recursion is the remaining iteration budget, the second the
absolute index of the next request, the third the accumulator
(`results.extend(...)`).  The returned Nat is the number of HTTP requests
issued; a non-success status aborts the whole fetch with the status code and
no accumulated items. -/
def fetchPages (http : Nat → HttpResp) : Nat → Nat → List PageRecord → Except Nat (List PageRecord) × Nat
  | 0, i, acc => (Except.ok acc, i)
  | n + 1, i, acc =>
    let r := http i
    if httpIsError r then (Except.error r.status, i + 1)
    else if strTruthy r.next_cursor then fetchPages http n (i + 1) (acc ++ r.results)
    else (Except.ok (acc ++ r.results), i + 1)

/-- The pagination loop started with no cursor and an empty accumulator. -/
def fetchAll (http : Nat → HttpResp) (max_pages : Nat) : Except Nat (List PageRecord) × Nat :=
  fetchPages http max_pages 0 []

/-- The operation enumeration of NotionDatabaseTool (a pydantic `Literal`). -/
inductive NotionOp where
  | list_databases | list_database_pages | query_database
  | fetch_page | create_page | update_page
deriving DecidableEq

/-- The Python string value of a Notion operation tag. -/
def NotionOp.pyName : NotionOp → String
  | NotionOp.list_databases => "list_databases"
  | NotionOp.list_database_pages => "list_database_pages"
  | NotionOp.query_database => "query_database"
  | NotionOp.fetch_page => "fetch_page"
  | NotionOp.create_page => "create_page"
  | NotionOp.update_page => "update_page"

/-- The argument record of NotionDatabaseTool with its source defaults. -/
structure NotionArgs where
  operation : NotionOp
  target_id : Option String := none
  properties_json : Option String := none
  page_size : Int := 10
  max_pages : Nat := 3

/-- The external world of a Notion invocation: the process environment
(`os.getenv`), the standard library JSON parser (`json.loads`; an `error`
carries the textual parse detail of the `JSONDecodeError`), and the HTTP
transport (`http i` is the response to the i-th request issued). -/
structure NotionWorld where
  env : String → Option String
  parse : String → Except String Json
  http : Nat → HttpResp

/-- Embedding of the credential chain
`os.getenv("NOTION_API_KEY") or os.getenv("NOTION_TOKEN") or
os.getenv("NOTION_MCP_OAUTH_TOKEN") or os.getenv("NOTION_MCP_TOKEN")`. -/
def notionApiKey (env : String → Option String) : Option String :=
  pyOrS (pyOrS (pyOrS (env "NOTION_API_KEY") (env "NOTION_TOKEN"))
      (env "NOTION_MCP_OAUTH_TOKEN"))
    (env "NOTION_MCP_TOKEN")

/-- Embedding of `_parse_json` (NotionDatabaseTool): wrap a parse failure as
InvalidJsonError carrying the field label and the parse detail. -/
def _parse_json (parse : String → Except String Json) (raw : String) (label : String) : Except ToolErr Json :=
  match parse raw with
  | Except.error d => Except.error (ToolErr.invalidJson label d)
  | Except.ok j => Except.ok j

/-- The numbered listing lines `f"{idx}. {title} ({id})"` built by the list
branches (`enumerate(results, 1)`). -/
def numberedLines (rs : List PageRecord) : List String :=
  rs.enum.map (fun p => toString (p.1 + 1) ++ ". " ++ _extract_title p.2 ++ " (" ++ pyStr p.2.id ++ ")")

/-- Python `"\n".join(lines) if lines else alt`. -/
def joinedOr (lines : List String) (alt : String) : String :=
  if lines.isEmpty then alt else String.intercalate "\n" lines

/-- The dash listing lines `f"- {title} ({id})"` of the query summary. -/
def dashLines (rs : List PageRecord) : List String :=
  rs.map (fun r => "- " ++ _extract_title r ++ " (" ++ pyStr r.id ++ ")")

/-- Embedding of `NotionDatabaseTool.run`.  `ctxLeadDbId` is the cached
context value `self._context.get("lead_db_id")`.  The result pairs the
operation outcome with the number of HTTP requests issued.  The branch order
mirrors the source: credential check, target fallback, `list_databases`
(which does not need a target), the target presence check, then the
remaining operation branches, and the final unsupported-operation raise. -/
def NotionDatabaseTool_run (w : NotionWorld) (a : NotionArgs) (ctxLeadDbId : Option String) : Except ToolErr String × Nat :=
  if !strTruthy (notionApiKey w.env) then
    (Except.error (ToolErr.missingCredential "Missing Notion credentials: set NOTION_API_KEY (or NOTION_TOKEN / NOTION_MCP_OAUTH_TOKEN / NOTION_MCP_TOKEN)."), 0)
  else
    let target := pyOrS a.target_id ctxLeadDbId
    if a.operation = NotionOp.list_databases then
      match fetchAll w.http a.max_pages with
      | (Except.error st, n) => (Except.error (ToolErr.upstream st), n)
      | (Except.ok results, n) =>
        (Except.ok ("Databases:\n" ++ joinedOr (numberedLines results) "(none found)"), n)
    else if !strTruthy target then
      (Except.error (ToolErr.missingArgument "target_id is required (or set context lead_db_id) for this operation."), 0)
    else
      let tgt := pyStr target
      if a.operation = NotionOp.list_database_pages then
        match fetchAll w.http a.max_pages with
        | (Except.error st, n) => (Except.error (ToolErr.upstream st), n)
        | (Except.ok pages, n) =>
          (Except.ok ("Database " ++ tgt ++ " pages (paginated up to " ++ toString a.max_pages ++ " pages x " ++ toString a.page_size ++ "):\n" ++ joinedOr (numberedLines pages) "(none found)"), n)
      else if a.operation = NotionOp.query_database then
        let r := w.http 0
        if httpIsError r then (Except.error (ToolErr.upstream r.status), 1)
        else
          let rows := r.results
          (Except.ok ("Queried database " ++ tgt ++ ": " ++ toString rows.length ++ " results (showing up to 10):\n" ++ String.intercalate "\n" (dashLines (rows.take 10))), 1)
      else if a.operation = NotionOp.fetch_page then
        let r := w.http 0
        if httpIsError r then (Except.error (ToolErr.upstream r.status), 1)
        else (Except.ok ("Fetched page " ++ tgt ++ " titled \x27" ++ _extract_title r.page ++ "\x27."), 1)
      else if a.operation = NotionOp.create_page then
        if !strTruthy a.properties_json then
          (Except.error (ToolErr.missingArgument "properties_json is required for create_page."), 0)
        else
          match _parse_json w.parse (a.properties_json.getD "") "properties_json" with
          | Except.error e => (Except.error e, 0)
          | Except.ok _ =>
            let r := w.http 0
            if httpIsError r then (Except.error (ToolErr.upstream r.status), 1)
            else (Except.ok ("Created page in database " ++ tgt ++ " with id " ++ pyStr r.page.id ++ "."), 1)
      else if a.operation = NotionOp.update_page then
        if !strTruthy a.properties_json then
          (Except.error (ToolErr.missingArgument "properties_json is required for update_page."), 0)
        else
          match _parse_json w.parse (a.properties_json.getD "") "properties_json" with
          | Except.error e => (Except.error e, 0)
          | Except.ok _ =>
            let r := w.http 0
            if httpIsError r then (Except.error (ToolErr.upstream r.status), 1)
            else (Except.ok ("Updated page " ++ tgt ++ " properties."), 1)
      else
        (Except.error (ToolErr.unsupported ("Unsupported operation: " ++ a.operation.pyName)), 0)

/-- The operation enumeration of ResendEmailTool (a pydantic `Literal`). -/
inductive ResendOp where
  | send_email | send_batch | get_email | update_email
  | cancel_email | list_emails | list_attachments | get_attachment
deriving DecidableEq

/-- The Python string value of a Resend operation tag. -/
def ResendOp.pyName : ResendOp → String
  | ResendOp.send_email => "send_email"
  | ResendOp.send_batch => "send_batch"
  | ResendOp.get_email => "get_email"
  | ResendOp.update_email => "update_email"
  | ResendOp.cancel_email => "cancel_email"
  | ResendOp.list_emails => "list_emails"
  | ResendOp.list_attachments => "list_attachments"
  | ResendOp.get_attachment => "get_attachment"

/-- The argument record of ResendEmailTool (all fields optional except the
operation tag). -/
structure ResendArgs where
  operation : ResendOp
  from_email : Option String := none
  «to» : Option (List String) := none
  subject : Option String := none
  html : Option String := none
  text : Option String := none
  scheduled_at : Option String := none
  batch_payload_json : Option String := none
  email_id : Option String := none
  attachment_id : Option String := none

/-- One response of the Resend client library, projected onto the fields the
tool reads: `['id']`, `.get('status')`, the printed representation
interpolated into the returned string, the item count computed by the list
branches, and `len(attachment or {})`. -/
structure RResp where
  idField : String := ""
  statusField : Option String := none
  reprText : String := ""
  dataCount : Nat := 0
  sizeLen : Nat := 0

/-- The external world of a Resend invocation: the process environment, the
standard library JSON parser, and the email transport (`transport i` is the
response to the i-th client library call issued). -/
structure ResendWorld where
  env : String → Option String
  parse : String → Except String Json
  transport : Nat → RResp

/-- Model of Python `v.replace("Z", "+00:00")` as applied by the timestamp
validator: every occurrence of the single character Z is replaced. -/
def replaceZ (s : String) : String :=
  String.mk (s.data.flatMap (fun c => if c = 'Z' then ['+', '0', '0', ':', '0', '0'] else [c]))

/-- The numeric value of two decimal digit characters. -/
def twoDigitVal (a b : Char) : Nat :=
  (a.toNat - 48) * 10 + (b.toNat - 48)

/-- A two-character hour field: digits with value at most 23. -/
def hourOk (a b : Char) : Bool :=
  a.isDigit && b.isDigit && twoDigitVal a b ≤ 23

/-- A two-character minute field: digits with value at most 59. -/
def minuteOk (a b : Char) : Bool :=
  a.isDigit && b.isDigit && twoDigitVal a b ≤ 59

/-- A two-character second field: digits with value at most 59. -/
def secondOk (a b : Char) : Bool :=
  a.isDigit && b.isDigit && twoDigitVal a b ≤ 59

/-- The time portion `HH[:MM[:SS[.fff or .ffffff]]]` accepted by
`datetime.fromisoformat`. -/
def isoTimeOk (cs : List Char) : Bool :=
  match cs with
  | [h1, h2] => hourOk h1 h2
  | [h1, h2, ':', m1, m2] => hourOk h1 h2 && minuteOk m1 m2
  | [h1, h2, ':', m1, m2, ':', s1, s2] => hourOk h1 h2 && minuteOk m1 m2 && secondOk s1 s2
  | h1 :: h2 :: ':' :: m1 :: m2 :: ':' :: s1 :: s2 :: '.' :: frac =>
    hourOk h1 h2 && minuteOk m1 m2 && secondOk s1 s2 &&
      (frac.length = 3 || frac.length = 6) && frac.all Char.isDigit
  | _ => false

/-- The UTC-offset portion `HH:MM[:SS]` following the sign character. -/
def isoTzOk (cs : List Char) : Bool :=
  match cs with
  | [h1, h2, ':', m1, m2] => hourOk h1 h2 && minuteOk m1 m2
  | [h1, h2, ':', m1, m2, ':', s1, s2] => hourOk h1 h2 && minuteOk m1 m2 && secondOk s1 s2
  | _ => false

/-- Split the time string at the sign of a UTC offset, mirroring
`tstr.find('-') + 1 or tstr.find('+') + 1`: the first minus sign wins,
otherwise the first plus sign. -/
def isoSplitTz (cs : List Char) : Bool :=
  match cs.findIdx? (fun c => c = '-') with
  | some i => isoTimeOk (cs.take i) && isoTzOk (cs.drop (i + 1))
  | none =>
    match cs.findIdx? (fun c => c = '+') with
    | some i => isoTimeOk (cs.take i) && isoTzOk (cs.drop (i + 1))
    | none => isoTimeOk cs

/-- Number of days in a month of the proleptic Gregorian calendar. -/
def daysInMonth (y m : Nat) : Nat :=
  if m = 2 then (if (y % 4 = 0 && y % 100 ≠ 0) || y % 400 = 0 then 29 else 28)
  else if m = 4 || m = 6 || m = 9 || m = 11 then 30 else 31

/-- The date portion `YYYY-MM-DD` accepted by `datetime.fromisoformat`. -/
def isoDateOk (cs : List Char) : Bool :=
  match cs with
  | [y1, y2, y3, y4, '-', m1, m2, '-', d1, d2] =>
    y1.isDigit && y2.isDigit && y3.isDigit && y4.isDigit &&
      m1.isDigit && m2.isDigit && d1.isDigit && d2.isDigit &&
      (let y := ((y1.toNat - 48) * 10 + (y2.toNat - 48)) * 100 + twoDigitVal y3 y4
       let mo := twoDigitVal m1 m2
       let da := twoDigitVal d1 d2
       1 ≤ y && 1 ≤ mo && mo ≤ 12 && 1 ≤ da && da ≤ daysInMonth y mo)
  | _ => false

/-- Modelled from the standard library (not in src/): acceptance of
`datetime.datetime.fromisoformat`, the ISO-8601 grammar
`YYYY-MM-DD[<sep>HH[:MM[:SS[.fff|.ffffff]]][(+|-)HH:MM[:SS]]]`.  The source
calls it inside the pydantic validator after replacing Z with +00:00. -/
def fromisoformatOk (s : String) : Bool :=
  let cs := s.data
  isoDateOk (cs.take 10) &&
    (match cs.drop 10 with
     | [] => true
     | _sep :: rest => !rest.isEmpty && isoSplitTz rest)

/-- Embedding of the pydantic validator `_validate_iso_datetime` on
`scheduled_at`: `None` passes, otherwise
`datetime.fromisoformat(v.replace("Z", "+00:00"))` must succeed, and the
value is returned unchanged. -/
def _validate_iso_datetime : Option String → Except ToolErr (Option String)
  | none => Except.ok none
  | some v =>
    if fromisoformatOk (replaceZ v) then Except.ok (some v)
    else Except.error ToolErr.invalidTimestamp

/-- Embedding of `_parse_batch`: parse the raw payload, wrapping a parse
failure as InvalidJsonError, and require the parsed value to be a JSON list
(`isinstance(payload, list)`), failing with InvalidPayloadShapeError
otherwise. -/
def _parse_batch (parse : String → Except String Json) (raw : String) : Except ToolErr (List Json) :=
  match parse raw with
  | Except.error d => Except.error (ToolErr.invalidJson "batch_payload_json" d)
  | Except.ok (Json.arr items) => Except.ok items
  | Except.ok _ => Except.error (ToolErr.invalidPayloadShape "batch_payload_json must be a JSON list of email param dictionaries.")

/-- Embedding of `ResendEmailTool.run`.  The result pairs the operation
outcome with the number of email transport calls issued.  The branch order
mirrors the source: credential check, then one branch per operation tag,
then the final unsupported-operation raise. -/
def ResendEmailTool_run (w : ResendWorld) (a : ResendArgs) : Except ToolErr String × Nat :=
  if !strTruthy (w.env "RESEND_API_KEY") then
    (Except.error (ToolErr.missingCredential "Missing RESEND_API_KEY in environment."), 0)
  else if a.operation = ResendOp.send_email then
    if !(strTruthy a.from_email && listTruthy a.«to» && strTruthy a.subject && (strTruthy a.html || strTruthy a.text)) then
      (Except.error (ToolErr.missingArgument "from_email, to, subject, and html or text are required for send_email."), 0)
    else
      let r := w.transport 0
      (Except.ok ("Sent email id: " ++ r.idField ++ " to " ++ String.intercalate ", " (a.«to».getD []) ++ "."), 1)
  else if a.operation = ResendOp.send_batch then
    if !strTruthy a.batch_payload_json then
      (Except.error (ToolErr.missingArgument "batch_payload_json is required for send_batch."), 0)
    else
      match _parse_batch w.parse (a.batch_payload_json.getD "") with
      | Except.error e => (Except.error e, 0)
      | Except.ok payload =>
        let r := w.transport 0
        (Except.ok ("Batch send triggered for " ++ toString payload.length ++ " messages. Response: " ++ r.reprText), 1)
  else if a.operation = ResendOp.get_email then
    if !strTruthy a.email_id then
      (Except.error (ToolErr.missingArgument "email_id is required for get_email."), 0)
    else
      let r := w.transport 0
      (Except.ok ("Email " ++ pyStr a.email_id ++ " status: " ++ pyStr r.statusField), 1)
  else if a.operation = ResendOp.update_email then
    if !(strTruthy a.email_id && strTruthy a.scheduled_at) then
      (Except.error (ToolErr.missingArgument "email_id and scheduled_at are required for update_email."), 0)
    else
      let r := w.transport 0
      (Except.ok ("Updated email " ++ pyStr a.email_id ++ " schedule to " ++ pyStr a.scheduled_at ++ ". Response: " ++ r.reprText), 1)
  else if a.operation = ResendOp.cancel_email then
    if !strTruthy a.email_id then
      (Except.error (ToolErr.missingArgument "email_id is required for cancel_email."), 0)
    else
      let r := w.transport 0
      (Except.ok ("Canceled email " ++ pyStr a.email_id ++ ". Response: " ++ r.reprText), 1)
  else if a.operation = ResendOp.list_emails then
    let r := w.transport 0
    (Except.ok ("Listed " ++ toString r.dataCount ++ " emails."), 1)
  else if a.operation = ResendOp.list_attachments then
    if !strTruthy a.email_id then
      (Except.error (ToolErr.missingArgument "email_id is required for list_attachments."), 0)
    else
      let r := w.transport 0
      (Except.ok ("Email " ++ pyStr a.email_id ++ " attachments: " ++ toString r.dataCount ++ " found."), 1)
  else if a.operation = ResendOp.get_attachment then
    if !(strTruthy a.email_id && strTruthy a.attachment_id) then
      (Except.error (ToolErr.missingArgument "email_id and attachment_id are required for get_attachment."), 0)
    else
      let r := w.transport 0
      (Except.ok ("Fetched attachment " ++ pyStr a.attachment_id ++ " for email " ++ pyStr a.email_id ++ ". Size: " ++ toString r.sizeLen ++ " bytes."), 1)
  else
    (Except.error (ToolErr.unsupported ("Unsupported operation: " ++ a.operation.pyName)), 0)

/-- A full tool invocation: pydantic runs the field validator at construction
time, before `run` can execute, so an invalid `scheduled_at` aborts the
invocation with zero transport calls. -/
def ResendEmailTool_invoke (w : ResendWorld) (a : ResendArgs) : Except ToolErr String × Nat :=
  match _validate_iso_datetime a.scheduled_at with
  | Except.error e => (Except.error e, 0)
  | Except.ok _ => ResendEmailTool_run w a

/-- Helper: in a run of the pagination loop starting at absolute request
index `i`, when every response up to page `k` is successful and page `k` is
the first page whose cursor is falsy, the loop performs exactly
`min (k - i) n` further iterations and accumulates the result items of the
visited pages in request order. -/
theorem fetchPages_ok_spec (http : Nat → HttpResp) (k : Nat)
    (hcur : ∀ i, i + 1 < k → strTruthy (http i).next_cursor = true)
    (hlast : strTruthy (http (k - 1)).next_cursor = false)
    (hok : ∀ i, i < k → httpIsError (http i) = false) :
    ∀ n i acc, i < k →
      fetchPages http n i acc =
        (Except.ok (acc ++ (List.range' i (min (k - i) n)).flatMap (fun j => (http j).results)),
          i + min (k - i) n) := by
  intro n
  induction n with
  | zero =>
    intro i acc _
    simp [fetchPages]
  | succ n ih =>
    intro i acc hik
    by_cases hik1 : i + 1 < k
    · have hmin : min (k - i) (n + 1) = min (k - (i + 1)) n + 1 := by omega
      simp only [fetchPages, hok i hik, hcur i hik1, Bool.false_eq_true, if_false, if_true]
      rw [ih (i + 1) (acc ++ (http i).results) hik1]
      rw [hmin, List.range'_succ i (min (k - (i + 1)) n) 1]
      simp [List.append_assoc]
      omega
    · have hi : i = k - 1 := by omega
      have hcurF : strTruthy (http i).next_cursor = false := by rw [hi]; exact hlast
      have hmin : min (k - i) (n + 1) = 1 := by omega
      simp only [fetchPages, hok i hik, hcurF, Bool.false_eq_true, if_false]
      rw [hmin, List.range'_succ i 0 1]
      simp

/-- Helper: when every response before absolute index `e` is successful with
a truthy cursor, the response at index `e` has a non-success status, and the
iteration budget reaches index `e`, the whole fetch aborts with that status
after issuing `e + 1` requests, discarding the accumulator. -/
theorem fetchPages_err_spec (http : Nat → HttpResp) (e : Nat)
    (hok : ∀ i, i < e → httpIsError (http i) = false)
    (hcur : ∀ i, i < e → strTruthy (http i).next_cursor = true)
    (herr : httpIsError (http e) = true) :
    ∀ n i acc, i ≤ e → e - i < n →
      fetchPages http n i acc = (Except.error (http e).status, e + 1) := by
  intro n
  induction n with
  | zero =>
    intro i acc _ hlt
    omega
  | succ n ih =>
    intro i acc hie hlt
    by_cases hieq : i = e
    · subst hieq
      simp [fetchPages, herr]
    · have hilt : i < e := by omega
      simp only [fetchPages, hok i hilt, hcur i hilt, Bool.false_eq_true, if_false, if_true]
      exact ih (i + 1) (acc ++ (http i).results) (by omega) (by omega)

/-- Helper: a non-empty string is Python-truthy. -/
theorem strTruthy_some_of_ne (s : String) (h : s ≠ "") : strTruthy (some s) = true := by
  simp [strTruthy, h]

/-- C1: for every sequence of service pages in which page k (1-based) is the
first page returned with no continuation cursor, and for every max_pages
ceiling m, the pagination loop issues exactly min k m requests and
accumulates exactly the result items of pages 1..min k m in
service-returned order; the list_databases and list_database_pages branches
of the dispatcher return these items rendered as numbered lines, with
min k m HTTP requests issued. -/
theorem C1_pagination_termination (w : NotionWorld) (k m : Nat) (t : String)
    (hk : 0 < k)
    (hcur : ∀ i, i + 1 < k → strTruthy (w.http i).next_cursor = true)
    (hlast : strTruthy (w.http (k - 1)).next_cursor = false)
    (hok : ∀ i, i < k → httpIsError (w.http i) = false)
    (hcred : strTruthy (notionApiKey w.env) = true)
    (ht : t ≠ "") :
    fetchAll w.http m =
      (Except.ok ((List.range (min k m)).flatMap (fun i => (w.http i).results)), min k m)
    ∧ NotionDatabaseTool_run w { operation := NotionOp.list_databases, max_pages := m } none =
        (Except.ok ("Databases:\n" ++
          joinedOr (numberedLines ((List.range (min k m)).flatMap (fun i => (w.http i).results))) "(none found)"), min k m)
    ∧ NotionDatabaseTool_run w
        { operation := NotionOp.list_database_pages, target_id := some t, max_pages := m } none =
        (Except.ok ("Database " ++ t ++ " pages (paginated up to " ++ toString m ++
          " pages x " ++ toString (10 : Int) ++ "):\n" ++
          joinedOr (numberedLines ((List.range (min k m)).flatMap (fun i => (w.http i).results))) "(none found)"), min k m) := by
  have hfetch : fetchAll w.http m =
      (Except.ok ((List.range (min k m)).flatMap (fun i => (w.http i).results)), min k m) := by
    have h0 := fetchPages_ok_spec w.http k hcur hlast hok m 0 [] hk
    rw [fetchAll, h0]
    simp [List.range_eq_range']
  refine ⟨hfetch, ?_, ?_⟩
  · simp [NotionDatabaseTool_run, hcred, hfetch]
  · simp [NotionDatabaseTool_run, hcred, hfetch, pyOrS, strTruthy_some_of_ne t ht, pyStr]

/-- Concrete world for the C1 witness: page 1 carries a cursor, page 2 does
not, so the service exhausts after two pages. -/
def wC1 : NotionWorld where
  env := fun key => if key = "NOTION_API_KEY" then some "secret" else none
  parse := fun _ => Except.error "Expecting value: line 1 column 1 (char 0)"
  http := fun i =>
    if i = 0 then { status := 200, results := [{ id := some "a" }], next_cursor := some "c1" }
    else { status := 200, results := [{ id := some "b" }], next_cursor := none }

/-- Witness for C1 at k = 2, max_pages = 3: two requests, both pages
accumulated in order. -/
theorem C1_pagination_termination_witness :
    fetchAll wC1.http 3 = (Except.ok [{ id := some "a" }, { id := some "b" }], 2)
    ∧ NotionDatabaseTool_run wC1 { operation := NotionOp.list_databases, max_pages := 3 } none =
        (Except.ok "Databases:\n1. (untitled) (a)\n2. (untitled) (b)", 2)
    ∧ NotionDatabaseTool_run wC1
        { operation := NotionOp.list_database_pages, target_id := some "db1", max_pages := 3 } none =
        (Except.ok "Database db1 pages (paginated up to 3 pages x 10):\n1. (untitled) (a)\n2. (untitled) (b)", 2) := by
  have hcur : ∀ i, i + 1 < 2 → strTruthy (wC1.http i).next_cursor = true := by
    intro i hi
    have h0 : i = 0 := by omega
    subst h0
    decide
  have hok : ∀ i, i < 2 → httpIsError (wC1.http i) = false := by
    intro i hi
    have h01 : i = 0 ∨ i = 1 := by omega
    rcases h01 with h | h <;> subst h <;> decide
  have h := C1_pagination_termination wC1 2 3 "db1" (by omega) hcur (by decide) hok (by decide) (by decide)
  exact h

/-- Helper: the successful-fetch specification at the top level of the loop. -/
theorem fetchAll_ok_spec (http : Nat → HttpResp) (k m : Nat)
    (hk : 0 < k)
    (hcur : ∀ i, i + 1 < k → strTruthy (http i).next_cursor = true)
    (hlast : strTruthy (http (k - 1)).next_cursor = false)
    (hok : ∀ i, i < k → httpIsError (http i) = false) :
    fetchAll http m =
      (Except.ok ((List.range (min k m)).flatMap (fun i => (http i).results)), min k m) := by
  have h0 := fetchPages_ok_spec http k hcur hlast hok m 0 [] hk
  rw [fetchAll, h0]
  simp [List.range_eq_range']

/-- C6: if during a paginated fetch the response to request e (0-based) has a
non-success status while all earlier responses succeeded with truthy
cursors, the whole fetch fails with UpstreamRequestError carrying that
status and no partial accumulated result is returned; and when all
iterations succeed, the accumulated sequence is exactly the concatenation of
the pages in service-returned order, with no deduplication. -/
theorem C6_upstream_abort_and_order (w w2 : NotionWorld) (e m k m2 : Nat)
    (hem : e < m)
    (hok : ∀ i, i < e → httpIsError (w.http i) = false)
    (hcur : ∀ i, i < e → strTruthy (w.http i).next_cursor = true)
    (herr : httpIsError (w.http e) = true)
    (hcred : strTruthy (notionApiKey w.env) = true)
    (hk : 0 < k)
    (hcur2 : ∀ i, i + 1 < k → strTruthy (w2.http i).next_cursor = true)
    (hlast2 : strTruthy (w2.http (k - 1)).next_cursor = false)
    (hok2 : ∀ i, i < k → httpIsError (w2.http i) = false) :
    fetchAll w.http m = (Except.error (w.http e).status, e + 1)
    ∧ NotionDatabaseTool_run w { operation := NotionOp.list_databases, max_pages := m } none =
        (Except.error (ToolErr.upstream (w.http e).status), e + 1)
    ∧ fetchAll w2.http m2 =
        (Except.ok ((List.range (min k m2)).flatMap (fun i => (w2.http i).results)), min k m2) := by
  have hfetch : fetchAll w.http m = (Except.error (w.http e).status, e + 1) :=
    fetchPages_err_spec w.http e hok hcur herr m 0 [] (by omega) (by omega)
  refine ⟨hfetch, ?_, fetchAll_ok_spec w2.http k m2 hk hcur2 hlast2 hok2⟩
  simp [NotionDatabaseTool_run, hcred, hfetch]

/-- Concrete world for the C6 witness, failing side: the first page succeeds
with a cursor, the second request returns status 500. -/
def wC6a : NotionWorld where
  env := fun key => if key = "NOTION_API_KEY" then some "secret" else none
  parse := fun _ => Except.error "Expecting value: line 1 column 1 (char 0)"
  http := fun i =>
    if i = 0 then { status := 200, results := [{ id := some "a" }], next_cursor := some "c1" }
    else { status := 500 }

/-- Concrete world for the C6 witness, succeeding side: one page with a
duplicated record and no cursor. -/
def wC6b : NotionWorld where
  env := fun key => if key = "NOTION_API_KEY" then some "secret" else none
  parse := fun _ => Except.error "Expecting value: line 1 column 1 (char 0)"
  http := fun _ => { status := 200, results := [{ id := some "b" }, { id := some "b" }] }

/-- Witness for C6: the failing world aborts after two requests with status
500 and no partial items; the succeeding world returns the duplicated
records verbatim and in order. -/
theorem C6_upstream_abort_and_order_witness :
    fetchAll wC6a.http 3 = (Except.error 500, 2)
    ∧ NotionDatabaseTool_run wC6a { operation := NotionOp.list_databases, max_pages := 3 } none =
        (Except.error (ToolErr.upstream 500), 2)
    ∧ fetchAll wC6b.http 2 =
        (Except.ok [{ id := some "b" }, { id := some "b" }], 1) := by
  have hok : ∀ i, i < 1 → httpIsError (wC6a.http i) = false := by
    intro i hi
    have h0 : i = 0 := by omega
    subst h0
    decide
  have hcur : ∀ i, i < 1 → strTruthy (wC6a.http i).next_cursor = true := by
    intro i hi
    have h0 : i = 0 := by omega
    subst h0
    decide
  have hcur2 : ∀ i, i + 1 < 1 → strTruthy (wC6b.http i).next_cursor = true := by
    intro i hi
    omega
  have hok2 : ∀ i, i < 1 → httpIsError (wC6b.http i) = false := by
    intro i hi
    have h0 : i = 0 := by omega
    subst h0
    decide
  have h := C6_upstream_abort_and_order wC6a wC6b 1 3 1 2 (by omega) hok hcur (by decide)
    (by decide) (by omega) hcur2 (by decide) hok2
  exact h

/-- C2 (amended): for every update_page or create_page invocation whose
properties_json is a non-empty string that is not well-formed JSON, the
operation fails with InvalidJsonError carrying the field label and the parse
detail, and issues zero HTTP requests; the parse failure is raised before
any network call.  (The empty string, although itself malformed JSON, is
caught earlier by the required-argument check — see the counterexample.) -/
theorem C2_invalid_properties_json (w : NotionWorld) (t s d : String)
    (hcred : strTruthy (notionApiKey w.env) = true)
    (ht : t ≠ "") (hs : s ≠ "")
    (hparse : w.parse s = Except.error d) :
    NotionDatabaseTool_run w
        { operation := NotionOp.update_page, target_id := some t, properties_json := some s } none =
      (Except.error (ToolErr.invalidJson "properties_json" d), 0)
    ∧ NotionDatabaseTool_run w
        { operation := NotionOp.create_page, target_id := some t, properties_json := some s } none =
      (Except.error (ToolErr.invalidJson "properties_json" d), 0) := by
  constructor <;>
    simp [NotionDatabaseTool_run, hcred, pyOrS, strTruthy_some_of_ne t ht,
      strTruthy_some_of_ne s hs, _parse_json, hparse]

/-- Concrete world for C2: the parser rejects every string with the detail
message a JSONDecodeError produces on such input, and credentials are set. -/
def wC2 : NotionWorld where
  env := fun key => if key = "NOTION_API_KEY" then some "secret" else none
  parse := fun _ => Except.error "Expecting value: line 1 column 1 (char 0)"
  http := fun _ => { status := 200 }

/-- Witness for C2 at the malformed non-empty payload string. -/
theorem C2_invalid_properties_json_witness :
    NotionDatabaseTool_run wC2
        { operation := NotionOp.update_page, target_id := some "p1", properties_json := some "oops" } none =
      (Except.error (ToolErr.invalidJson "properties_json" "Expecting value: line 1 column 1 (char 0)"), 0)
    ∧ NotionDatabaseTool_run wC2
        { operation := NotionOp.create_page, target_id := some "p1", properties_json := some "oops" } none =
      (Except.error (ToolErr.invalidJson "properties_json" "Expecting value: line 1 column 1 (char 0)"), 0) := by
  exact C2_invalid_properties_json wC2 "p1" "oops" "Expecting value: line 1 column 1 (char 0)"
    (by decide) (by decide) (by decide) rfl

/-- Counterexample to C2 as stated: the empty string is not well-formed JSON
(the parser of this world rejects it with the same detail CPython produces),
yet update_page fails with MissingArgumentError, not InvalidJsonError,
because the falsy-argument check precedes the parse. -/
theorem C2_counterexample :
    NotionDatabaseTool_run wC2
        { operation := NotionOp.update_page, target_id := some "p1", properties_json := some "" } none =
      (Except.error (ToolErr.missingArgument "properties_json is required for update_page."), 0)
    ∧ wC2.parse "" = Except.error "Expecting value: line 1 column 1 (char 0)"
    ∧ (NotionDatabaseTool_run wC2
        { operation := NotionOp.update_page, target_id := some "p1", properties_json := some "" } none).1 ≠
      Except.error (ToolErr.invalidJson "properties_json" "Expecting value: line 1 column 1 (char 0)") := by
  exact ⟨by decide, rfl, by decide⟩

/-- Helper: the title scan skips every property value that is not a
title-typed dict or whose title list is empty. -/
theorem firstTitleText_skip (ps1 : List PropVal)
    (h : ∀ p ∈ ps1, isTitleProp p = false ∨ titleList p = []) (rest : List PropVal) :
    firstTitleText (ps1 ++ rest) = firstTitleText rest := by
  induction ps1 with
  | nil => simp
  | cons p ps ih =>
    have hp := h p (List.mem_cons_self p ps)
    have hps : ∀ q ∈ ps, isTitleProp q = false ∨ titleList q = [] :=
      fun q hq => h q (List.mem_cons_of_mem p hq)
    cases p with
    | nonDict => simp [firstTitleText, ih hps]
    | dict t l =>
      rcases hp with hp | hp
      · have ht : ¬(t = some "title") := by simpa [isTitleProp] using hp
        simp [firstTitleText, ht, ih hps]
      · have hl : l = [] := by simpa [titleList] using hp
        subst hl
        by_cases ht : t = some "title" <;> simp [firstTitleText, ht, ih hps]

/-- C3: title extraction is a total pure function (a Lean function with no
failure value): on a page-like record whose title-typed property is preceded
only by non-title properties, it returns the trimmed plain-text of the first
entry of that property, or the placeholder when that text trims to empty; on
a record with no title text at all (no title-typed property, or only
empty title lists) it returns the placeholder; on a database-like record it
reads the top-level title list, trimming the first entry or returning the
placeholder when the list is empty or the text trims to empty. -/
theorem C3_title_extraction_total (pid pid2 did did2 : Option String)
    (key : String) (ps1 ps2 ps : List (String × PropVal))
    (e e2 : TitleEntry) (es es2 : List TitleEntry)
    (h1 : ∀ p ∈ ps1.map Prod.snd, isTitleProp p = false)
    (h2 : ∀ p ∈ ps.map Prod.snd, isTitleProp p = false ∨ titleList p = []) :
    _extract_title
        { id := pid, properties := ps1 ++ (key, PropVal.dict (some "title") (e :: es)) :: ps2 } =
      (if pyStrip (e.plain_text.getD "") = "" then "(untitled)"
       else pyStrip (e.plain_text.getD ""))
    ∧ _extract_title { id := pid2, properties := ps } = "(untitled)"
    ∧ _extract_db_title { id := did, title := e2 :: es2 } =
      (if pyStrip (e2.plain_text.getD "") = "" then "(untitled)"
       else pyStrip (e2.plain_text.getD ""))
    ∧ _extract_db_title { id := did2, title := [] } = "(untitled)" := by
  refine ⟨?_, ?_, ?_, ?_⟩
  · have hskip := firstTitleText_skip (ps1.map Prod.snd)
      (fun p hp => Or.inl (h1 p hp))
      (PropVal.dict (some "title") (e :: es) :: ps2.map Prod.snd)
    simp only [_extract_title, List.map_append, List.map_cons]
    rw [hskip]
    simp [firstTitleText, titleTextOf]
  · have hskip := firstTitleText_skip (ps.map Prod.snd) h2 []
    simp only [_extract_title]
    rw [← List.append_nil (ps.map Prod.snd), hskip]
    rfl
  · simp [_extract_db_title, titleTextOf]
  · rfl

/-- Witness for C3: a record whose title property holds padded text
"Acme Corp", a record with only an empty title list, and database records
with a whitespace-only first entry and with an empty title list. -/
theorem C3_title_extraction_total_witness :
    _extract_title
        { id := some "p1",
          properties := [("Stage", PropVal.dict (some "select") []),
            ("Name", PropVal.dict (some "title") [{ plain_text := some "  Acme Corp " }])] } =
      "Acme Corp"
    ∧ _extract_title
        { id := some "p2", properties := [("Name", PropVal.dict (some "title") [])] } =
      "(untitled)"
    ∧ _extract_db_title { id := some "d1", title := [{ plain_text := some "   " }] } = "(untitled)"
    ∧ _extract_db_title { id := some "d2", title := [] } = "(untitled)" := by
  have h := C3_title_extraction_total (some "p1") (some "p2") (some "d1") (some "d2")
    "Name" [("Stage", PropVal.dict (some "select") [])] []
    [("Name", PropVal.dict (some "title") [])]
    { plain_text := some "  Acme Corp " } { plain_text := some "   " } [] []
    (by intro p hp; simp at hp; subst hp; decide)
    (by intro p hp; simp at hp; subst hp; right; rfl)
  exact h

/-- C10: the title scan proceeds in property-map order; a title-typed
property with an empty title list is skipped in favour of later properties,
while the first title-typed property with a non-empty list determines the
result immediately, independent of every remaining property — an empty or
whitespace-only first plain_text then yields the placeholder without
scanning further. -/
theorem C10_title_scan_order (pid pid2 pid3 : Option String) (k1 k2 k3 k4 : String)
    (e : TitleEntry) (es : List TitleEntry) (rest rest2 rest3 : List (String × PropVal)) :
    _extract_title { id := pid, properties := (k1, PropVal.dict (some "title") []) :: rest } =
      _extract_title { id := pid, properties := rest }
    ∧ _extract_title
        { id := pid2, properties := (k2, PropVal.dict (some "title") (e :: es)) :: rest2 } =
      titleTextOf e
    ∧ _extract_title
        { id := pid3,
          properties := (k3, PropVal.dict (some "title") []) ::
            (k4, PropVal.dict (some "title") (e :: es)) :: rest3 } =
      titleTextOf e
    ∧ titleTextOf e =
      (if pyStrip (e.plain_text.getD "") = "" then "(untitled)"
       else pyStrip (e.plain_text.getD "")) := by
  refine ⟨?_, ?_, ?_, ?_⟩
  · simp [_extract_title, firstTitleText]
  · simp [_extract_title, firstTitleText]
  · simp [_extract_title, firstTitleText]
  · simp [titleTextOf]

/-- C4: for every query_database invocation, the summary lists at most the
first 10 rows of the single upstream response as dash lines in service
order, while the numeric count in the summary is the full length of the
returned row list; exactly one HTTP request is issued. -/
theorem C4_query_summary_cap (w : NotionWorld) (t : String)
    (hcred : strTruthy (notionApiKey w.env) = true)
    (ht : t ≠ "")
    (hok : httpIsError (w.http 0) = false) :
    NotionDatabaseTool_run w { operation := NotionOp.query_database, target_id := some t } none =
      (Except.ok ("Queried database " ++ t ++ ": " ++ toString (w.http 0).results.length ++
        " results (showing up to 10):\n" ++
        String.intercalate "\n" (dashLines ((w.http 0).results.take 10))), 1)
    ∧ (dashLines ((w.http 0).results.take 10)).length = min 10 (w.http 0).results.length := by
  constructor
  · simp [NotionDatabaseTool_run, hcred, pyOrS, strTruthy_some_of_ne t ht, pyStr, hok]
  · simp [dashLines]

/-- Concrete world for the C4 witness: the single query response returns 12
rows. -/
def wC4 : NotionWorld where
  env := fun key => if key = "NOTION_API_KEY" then some "secret" else none
  parse := fun _ => Except.error "Expecting value: line 1 column 1 (char 0)"
  http := fun _ =>
    { status := 200,
      results := [{ id := some "r1" }, { id := some "r2" }, { id := some "r3" },
        { id := some "r4" }, { id := some "r5" }, { id := some "r6" }, { id := some "r7" },
        { id := some "r8" }, { id := some "r9" }, { id := some "r10" }, { id := some "r11" },
        { id := some "r12" }] }

/-- Witness for C4: 12 returned rows produce a count of 12 but only 10
displayed lines. -/
theorem C4_query_summary_cap_witness :
    NotionDatabaseTool_run wC4 { operation := NotionOp.query_database, target_id := some "db1" } none =
      (Except.ok ("Queried database db1: 12 results (showing up to 10):\n- (untitled) (r1)\n- (untitled) (r2)\n- (untitled) (r3)\n- (untitled) (r4)\n- (untitled) (r5)\n- (untitled) (r6)\n- (untitled) (r7)\n- (untitled) (r8)\n- (untitled) (r9)\n- (untitled) (r10)"), 1)
    ∧ (dashLines ((wC4.http 0).results.take 10)).length = min 10 (wC4.http 0).results.length := by
  have h := C4_query_summary_cap wC4 "db1" (by decide) (by decide) (by decide)
  exact h

/-- C5: credential resolution returns the value of the first environment
variable in the fixed priority order NOTION_API_KEY, NOTION_TOKEN,
NOTION_MCP_OAUTH_TOKEN, NOTION_MCP_TOKEN that is set and non-empty; when
none is (and, for the email tool, when RESEND_API_KEY is not set and
non-empty), every operation of either tool fails with
MissingCredentialError and issues zero transport calls, for all
operation/argument combinations. -/
theorem C5_credential_resolution (env1 env2 env3 env4 : String → Option String)
    (w : NotionWorld) (wr : ResendWorld) (a : NotionArgs) (ctx : Option String) (ar : ResendArgs)
    (h1 : strTruthy (env1 "NOTION_API_KEY") = true)
    (h2a : strTruthy (env2 "NOTION_API_KEY") = false)
    (h2b : strTruthy (env2 "NOTION_TOKEN") = true)
    (h3a : strTruthy (env3 "NOTION_API_KEY") = false)
    (h3b : strTruthy (env3 "NOTION_TOKEN") = false)
    (h3c : strTruthy (env3 "NOTION_MCP_OAUTH_TOKEN") = true)
    (h4a : strTruthy (env4 "NOTION_API_KEY") = false)
    (h4b : strTruthy (env4 "NOTION_TOKEN") = false)
    (h4c : strTruthy (env4 "NOTION_MCP_OAUTH_TOKEN") = false)
    (hN : strTruthy (notionApiKey w.env) = false)
    (hR : strTruthy (wr.env "RESEND_API_KEY") = false) :
    notionApiKey env1 = env1 "NOTION_API_KEY"
    ∧ notionApiKey env2 = env2 "NOTION_TOKEN"
    ∧ notionApiKey env3 = env3 "NOTION_MCP_OAUTH_TOKEN"
    ∧ notionApiKey env4 = env4 "NOTION_MCP_TOKEN"
    ∧ NotionDatabaseTool_run w a ctx =
      (Except.error (ToolErr.missingCredential "Missing Notion credentials: set NOTION_API_KEY (or NOTION_TOKEN / NOTION_MCP_OAUTH_TOKEN / NOTION_MCP_TOKEN)."), 0)
    ∧ ResendEmailTool_run wr ar =
      (Except.error (ToolErr.missingCredential "Missing RESEND_API_KEY in environment."), 0) := by
  refine ⟨?_, ?_, ?_, ?_, ?_, ?_⟩
  · simp [notionApiKey, pyOrS, h1]
  · simp [notionApiKey, pyOrS, h2a, h2b]
  · simp [notionApiKey, pyOrS, h3a, h3b, h3c]
  · simp [notionApiKey, pyOrS, h4a, h4b, h4c]
  · simp [NotionDatabaseTool_run, hN]
  · simp [ResendEmailTool_run, hR]

/-- Empty-environment world for the C5 witness, Notion side. -/
def wC5 : NotionWorld where
  env := fun _ => none
  parse := fun _ => Except.error "Expecting value: line 1 column 1 (char 0)"
  http := fun _ => { status := 200 }

/-- Empty-environment world for the C5 witness, Resend side: the key is set
to the empty string, which is falsy. -/
def wrC5 : ResendWorld where
  env := fun key => if key = "RESEND_API_KEY" then some "" else none
  parse := fun _ => Except.error "Expecting value: line 1 column 1 (char 0)"
  transport := fun _ => {}

/-- Priority-order environments for the C5 witness. -/
def envP1 : String → Option String := fun key =>
  if key = "NOTION_API_KEY" then some "k1" else some "other"

/-- Environment whose first variable is empty and second is set. -/
def envP2 : String → Option String := fun key =>
  if key = "NOTION_API_KEY" then some "" else if key = "NOTION_TOKEN" then some "k2" else some "other"

/-- Environment whose first two variables are unset or empty. -/
def envP3 : String → Option String := fun key =>
  if key = "NOTION_MCP_OAUTH_TOKEN" then some "k3"
  else if key = "NOTION_MCP_TOKEN" then some "k4" else none

/-- Environment with only the last variable set. -/
def envP4 : String → Option String := fun key =>
  if key = "NOTION_MCP_TOKEN" then some "k4" else none

/-- Witness for C5: each priority environment resolves to the expected
variable, and with no usable credential both tools fail with
MissingCredentialError and zero transport calls (here for update_page with
every argument supplied, and for send_email fully populated). -/
theorem C5_credential_resolution_witness :
    notionApiKey envP1 = envP1 "NOTION_API_KEY"
    ∧ notionApiKey envP2 = envP2 "NOTION_TOKEN"
    ∧ notionApiKey envP3 = envP3 "NOTION_MCP_OAUTH_TOKEN"
    ∧ notionApiKey envP4 = envP4 "NOTION_MCP_TOKEN"
    ∧ NotionDatabaseTool_run wC5
        { operation := NotionOp.update_page, target_id := some "p1", properties_json := some "x" }
        (some "ctxdb") =
      (Except.error (ToolErr.missingCredential "Missing Notion credentials: set NOTION_API_KEY (or NOTION_TOKEN / NOTION_MCP_OAUTH_TOKEN / NOTION_MCP_TOKEN)."), 0)
    ∧ ResendEmailTool_run wrC5
        { operation := ResendOp.send_email, from_email := some "Agent <a@b.c>",
          «to» := some ["x@y.z"], subject := some "Hi", html := some "<p>hello</p>" } =
      (Except.error (ToolErr.missingCredential "Missing RESEND_API_KEY in environment."), 0) := by
  have h := C5_credential_resolution envP1 envP2 envP3 envP4 wC5 wrC5
    { operation := NotionOp.update_page, target_id := some "p1", properties_json := some "x" }
    (some "ctxdb")
    { operation := ResendOp.send_email, from_email := some "Agent <a@b.c>",
      «to» := some ["x@y.z"], subject := some "Hi", html := some "<p>hello</p>" }
    (by decide) (by decide) (by decide) (by decide) (by decide) (by decide)
    (by decide) (by decide) (by decide) (by decide) (by decide)
  exact h

/-- C7 (amended): for every send_batch invocation with credentials present,
a falsy batch_payload_json (absent or empty string) fails with
MissingArgumentError; a non-empty string that is malformed JSON fails with
InvalidJsonError carrying the field name and the parse detail; and a
non-empty well-formed JSON string whose parsed value is not a list fails
with InvalidPayloadShapeError — in all three cases zero calls reach the
email transport.  (The empty string, although malformed JSON, is caught by
the required-argument check — see the counterexample.) -/
theorem C7_send_batch_validation (wr : ResendWorld) (b0 : Option String)
    (s s2 d : String) (j : Json)
    (hcred : strTruthy (wr.env "RESEND_API_KEY") = true)
    (hb0 : strTruthy b0 = false)
    (hs : s ≠ "")
    (hparse : wr.parse s = Except.error d)
    (hs2 : s2 ≠ "")
    (hparse2 : wr.parse s2 = Except.ok j)
    (hnl : ∀ items, j ≠ Json.arr items) :
    ResendEmailTool_run wr { operation := ResendOp.send_batch, batch_payload_json := b0 } =
      (Except.error (ToolErr.missingArgument "batch_payload_json is required for send_batch."), 0)
    ∧ ResendEmailTool_run wr { operation := ResendOp.send_batch, batch_payload_json := some s } =
      (Except.error (ToolErr.invalidJson "batch_payload_json" d), 0)
    ∧ ResendEmailTool_run wr { operation := ResendOp.send_batch, batch_payload_json := some s2 } =
      (Except.error (ToolErr.invalidPayloadShape "batch_payload_json must be a JSON list of email param dictionaries."), 0) := by
  refine ⟨?_, ?_, ?_⟩
  · simp [ResendEmailTool_run, hcred, hb0]
  · simp [ResendEmailTool_run, hcred, strTruthy_some_of_ne s hs, _parse_batch, hparse]
  · rcases j with _ | b | n | str | items | fields
    · simp [ResendEmailTool_run, hcred, strTruthy_some_of_ne s2 hs2, _parse_batch, hparse2]
    · simp [ResendEmailTool_run, hcred, strTruthy_some_of_ne s2 hs2, _parse_batch, hparse2]
    · simp [ResendEmailTool_run, hcred, strTruthy_some_of_ne s2 hs2, _parse_batch, hparse2]
    · simp [ResendEmailTool_run, hcred, strTruthy_some_of_ne s2 hs2, _parse_batch, hparse2]
    · exact absurd rfl (hnl items)
    · simp [ResendEmailTool_run, hcred, strTruthy_some_of_ne s2 hs2, _parse_batch, hparse2]

/-- Concrete world for C7: the parser accepts "42" as the JSON number 42 and
rejects every other string with the CPython detail message. -/
def wrC7 : ResendWorld where
  env := fun key => if key = "RESEND_API_KEY" then some "rk" else none
  parse := fun s => if s = "42" then Except.ok (Json.num 42)
    else Except.error "Expecting value: line 1 column 1 (char 0)"
  transport := fun _ => {}

/-- Witness for C7: an absent payload, the malformed string "nope", and the
well-formed non-list payload "42". -/
theorem C7_send_batch_validation_witness :
    ResendEmailTool_run wrC7 { operation := ResendOp.send_batch, batch_payload_json := none } =
      (Except.error (ToolErr.missingArgument "batch_payload_json is required for send_batch."), 0)
    ∧ ResendEmailTool_run wrC7 { operation := ResendOp.send_batch, batch_payload_json := some "nope" } =
      (Except.error (ToolErr.invalidJson "batch_payload_json" "Expecting value: line 1 column 1 (char 0)"), 0)
    ∧ ResendEmailTool_run wrC7 { operation := ResendOp.send_batch, batch_payload_json := some "42" } =
      (Except.error (ToolErr.invalidPayloadShape "batch_payload_json must be a JSON list of email param dictionaries."), 0) := by
  have h := C7_send_batch_validation wrC7 none "nope" "42"
    "Expecting value: line 1 column 1 (char 0)" (Json.num 42)
    (by decide) (by decide) (by decide) rfl (by decide) rfl
    (fun items h => Json.noConfusion h)
  exact h

/-- Counterexample to C7 as stated: the empty string is a malformed JSON
string (this world's parser rejects it with the CPython detail), yet
send_batch fails with MissingArgumentError, not InvalidJsonError, because
the falsy-argument check precedes the parse. -/
theorem C7_counterexample :
    ResendEmailTool_run wrC7 { operation := ResendOp.send_batch, batch_payload_json := some "" } =
      (Except.error (ToolErr.missingArgument "batch_payload_json is required for send_batch."), 0)
    ∧ wrC7.parse "" = Except.error "Expecting value: line 1 column 1 (char 0)"
    ∧ (ResendEmailTool_run wrC7 { operation := ResendOp.send_batch, batch_payload_json := some "" }).1 ≠
      Except.error (ToolErr.invalidJson "batch_payload_json" "Expecting value: line 1 column 1 (char 0)") := by
  exact ⟨by decide, rfl, by decide⟩

/-- C8: an invocation whose scheduled_at is not accepted by the ISO-8601
model of `datetime.fromisoformat` (after replacing Z with +00:00) fails with
InvalidTimestampError at field-validation time with zero transport calls,
for every operation; an accepted value passes validation unchanged, the
trailing Z form included; and update_email requires both email_id and
scheduled_at, failing with MissingArgumentError with zero transport calls
when either is falsy. -/
theorem C8_timestamp_validation (wr wr2 : ResendWorld) (a b : ResendArgs) (v u : String)
    (hbad : fromisoformatOk (replaceZ v) = false)
    (hv : a.scheduled_at = some v)
    (hgood : fromisoformatOk (replaceZ u) = true)
    (hcred : strTruthy (wr2.env "RESEND_API_KEY") = true)
    (hop : b.operation = ResendOp.update_email)
    (hmiss : (strTruthy b.email_id && strTruthy b.scheduled_at) = false) :
    ResendEmailTool_invoke wr a = (Except.error ToolErr.invalidTimestamp, 0)
    ∧ _validate_iso_datetime (some u) = Except.ok (some u)
    ∧ _validate_iso_datetime (some "2025-01-01T00:00:00Z") =
      Except.ok (some "2025-01-01T00:00:00Z")
    ∧ _validate_iso_datetime (some "not-a-date") = Except.error ToolErr.invalidTimestamp
    ∧ ResendEmailTool_run wr2 b =
      (Except.error (ToolErr.missingArgument "email_id and scheduled_at are required for update_email."), 0) := by
  refine ⟨?_, ?_, by decide, by decide, ?_⟩
  · simp [ResendEmailTool_invoke, _validate_iso_datetime, hv, hbad]
  · simp [_validate_iso_datetime, hgood]
  · simp [ResendEmailTool_run, hcred, hop, hmiss]

/-- Concrete world for the C8 witness. -/
def wrC8 : ResendWorld where
  env := fun key => if key = "RESEND_API_KEY" then some "rk" else none
  parse := fun _ => Except.error "Expecting value: line 1 column 1 (char 0)"
  transport := fun _ => {}

/-- Witness for C8: "not-a-date" aborts a get_email invocation at validation
time; "2025-01-01T00:00:00Z" passes unchanged; update_email without
scheduled_at fails with MissingArgumentError. -/
theorem C8_timestamp_validation_witness :
    ResendEmailTool_invoke wrC8
        { operation := ResendOp.get_email, email_id := some "e1", scheduled_at := some "not-a-date" } =
      (Except.error ToolErr.invalidTimestamp, 0)
    ∧ _validate_iso_datetime (some "2024-02-29T23:59:59.123456+05:30") =
      Except.ok (some "2024-02-29T23:59:59.123456+05:30")
    ∧ _validate_iso_datetime (some "2025-01-01T00:00:00Z") =
      Except.ok (some "2025-01-01T00:00:00Z")
    ∧ _validate_iso_datetime (some "not-a-date") = Except.error ToolErr.invalidTimestamp
    ∧ ResendEmailTool_run wrC8 { operation := ResendOp.update_email, email_id := some "e1" } =
      (Except.error (ToolErr.missingArgument "email_id and scheduled_at are required for update_email."), 0) := by
  have h := C8_timestamp_validation wrC8 wrC8
    { operation := ResendOp.get_email, email_id := some "e1", scheduled_at := some "not-a-date" }
    { operation := ResendOp.update_email, email_id := some "e1" }
    "not-a-date" "2024-02-29T23:59:59.123456+05:30"
    (by decide) rfl (by decide) (by decide) rfl (by decide)
  exact h

/-- C9: for every Notion operation other than list_databases, an omitted or
falsy target_id makes the dispatcher consult the cached context value
lead_db_id: it fails with MissingArgumentError (before any HTTP call) only
when both are falsy, and with a truthy context value the run is identical to
a run whose target_id is that value; and send_email with both html and text
falsy fails with MissingArgumentError before any call to the email
transport. -/
theorem C9_target_fallback_and_send_email (w : NotionWorld) (wr : ResendWorld)
    (a b : NotionArgs) (ar : ResendArgs) (c : String) (ctxF : Option String)
    (hcred : strTruthy (notionApiKey w.env) = true)
    (hop : a.operation ≠ NotionOp.list_databases)
    (hatid : strTruthy a.target_id = false)
    (hctxF : strTruthy ctxF = false)
    (hbtid : strTruthy b.target_id = false)
    (hc : c ≠ "")
    (hcredR : strTruthy (wr.env "RESEND_API_KEY") = true)
    (hopR : ar.operation = ResendOp.send_email)
    (hhtml : strTruthy ar.html = false)
    (htext : strTruthy ar.text = false) :
    NotionDatabaseTool_run w a ctxF =
      (Except.error (ToolErr.missingArgument "target_id is required (or set context lead_db_id) for this operation."), 0)
    ∧ NotionDatabaseTool_run w b (some c) =
      NotionDatabaseTool_run w { b with target_id := some c } none
    ∧ ResendEmailTool_run wr ar =
      (Except.error (ToolErr.missingArgument "from_email, to, subject, and html or text are required for send_email."), 0) := by
  refine ⟨?_, ?_, ?_⟩
  · simp [NotionDatabaseTool_run, hcred, hop, pyOrS, hatid, hctxF]
  · have h1 : pyOrS b.target_id (some c) = some c := by simp [pyOrS, hbtid]
    have h2 : pyOrS (some c) none = some c := by simp [pyOrS, strTruthy_some_of_ne c hc]
    simp only [NotionDatabaseTool_run, h1, h2]
  · simp [ResendEmailTool_run, hcredR, hopR, hhtml, htext]

/-- Concrete world for the C9 witness, Notion side. -/
def wC9 : NotionWorld where
  env := fun key => if key = "NOTION_API_KEY" then some "secret" else none
  parse := fun _ => Except.error "Expecting value: line 1 column 1 (char 0)"
  http := fun _ => { status := 200, results := [{ id := some "row" }] }

/-- Concrete world for the C9 witness, Resend side. -/
def wrC9 : ResendWorld where
  env := fun key => if key = "RESEND_API_KEY" then some "rk" else none
  parse := fun _ => Except.error "Expecting value: line 1 column 1 (char 0)"
  transport := fun _ => {}

/-- Witness for C9: fetch_page with neither target_id nor context fails with
MissingArgumentError; query_database with only the context value behaves as
if the context value had been passed as target_id; send_email with subject
and recipients but no body fails with MissingArgumentError. -/
theorem C9_target_fallback_and_send_email_witness :
    NotionDatabaseTool_run wC9 { operation := NotionOp.fetch_page } none =
      (Except.error (ToolErr.missingArgument "target_id is required (or set context lead_db_id) for this operation."), 0)
    ∧ NotionDatabaseTool_run wC9 { operation := NotionOp.query_database } (some "ctxdb") =
      NotionDatabaseTool_run wC9
        { operation := NotionOp.query_database, target_id := some "ctxdb" } none
    ∧ ResendEmailTool_run wrC9
        { operation := ResendOp.send_email, from_email := some "Agent <a@b.c>",
          «to» := some ["x@y.z"], subject := some "Hi" } =
      (Except.error (ToolErr.missingArgument "from_email, to, subject, and html or text are required for send_email."), 0) := by
  have h := C9_target_fallback_and_send_email wC9 wrC9
    { operation := NotionOp.fetch_page } { operation := NotionOp.query_database }
    { operation := ResendOp.send_email, from_email := some "Agent <a@b.c>",
      «to» := some ["x@y.z"], subject := some "Hi" }
    "ctxdb" none
    (by decide) (by decide) (by decide) (by decide) (by decide) (by decide)
    (by decide) rfl (by decide) (by decide)
  exact h
